import Mathlib

/-
Verification of the gsconfig GeoServer REST client (geoserver/catalog.py and
geoserver/layer.py) against its natural-language specification.

The embedding models the Python 2 code shallowly:
  * HTTP is modelled by passing the response (status code and body) — or a
    response function from URLs — as an explicit argument.
  * The 5-second response cache `Catalog._cache` is an association list from
    URLs to (stored-time, body) pairs; wall-clock time is a natural number
    passed explicitly.
  * Exceptions become the `Except GsError` monad; each Python exception class
    is a constructor of `GsError`, carrying the message string the code builds.
  * XML documents (`xml.etree.ElementTree`) are a shallow element tree; the
    library parse function `XML(...)` is abstracted as a
    `String → Option XmlElem` parameter, since it is third-party code.
-/

namespace GsConfig

/-- Exception classes raised by catalog.py, plus the Python built-in
exceptions its code can raise (`ValueError` in `_name`, `TypeError` from
string-plus-list concatenation, plain `Exception` for non-XML bodies). -/
inductive GsError where
  | failedRequest (msg : String)
  | ambiguousRequest (msg : String)
  | conflictingData (msg : String)
  | uploadErr (msg : String)
  | valueError (msg : String)
  | typeError (msg : String)
  | otherExn (msg : String)
  deriving Repr, DecidableEq

/-- An HTTP response as httplib2 presents it to this code: the status code
together with the response body handed back alongside it. -/
structure HttpResp where
  status : Nat
  body : String
  deriving Repr, DecidableEq

/-- The `Catalog._cache` dictionary: URL to (time stored, response body). -/
abbrev Cache : Type := List (String × Nat × String)

/-- Dictionary lookup, `self._cache.get(rest_url)`. -/
def cacheGet (c : Cache) (u : String) : Option (Nat × String) :=
  (c.find? (fun e => e.1 = u)).map (fun e => e.2)

/-- Dictionary update, `self._cache[rest_url] = v`: replace the entry if the
key is present, append it otherwise. -/
def cacheSet (c : Cache) (u : String) (v : Nat × String) : Cache :=
  if (c.find? (fun e => e.1 = u)).isSome then
    c.map (fun e => if e.1 = u then (u, v) else e)
  else
    c ++ [(u, v)]

/-- Dictionary clearing, `self._cache.clear()`. -/
def cacheClear (_c : Cache) : Cache := []

/-- A shallow `xml.etree.ElementTree` element: tag, text and children. -/
inductive XmlElem where
  | elem (tag : String) (text : String) (children : List XmlElem)
  deriving Repr

/-- The tag of an element. -/
def XmlElem.tagOf : XmlElem → String
  | .elem t _ _ => t

/-- The text of an element. -/
def XmlElem.textOf : XmlElem → String
  | .elem _ s _ => s

/-- The children of an element. -/
def XmlElem.childrenOf : XmlElem → List XmlElem
  | .elem _ _ cs => cs

/-- ElementTree `element.findall(tag)`: all direct children with that tag. -/
def XmlElem.findall (x : XmlElem) (tag : String) : List XmlElem :=
  x.childrenOf.filter (fun c => c.tagOf = tag)

/-- ElementTree `element.find(tag)`: the first direct child with that tag,
`None` when there is none. -/
def XmlElem.findTag (x : XmlElem) (tag : String) : Option XmlElem :=
  x.childrenOf.find? (fun c => c.tagOf = tag)

/-- Modelled from the spec: `geoserver.support.url` lives in support.py, which
is not under src/. The spec describes the external interface as fixed REST
paths under the service URL such as `<service_url>/layers.xml` and
`/styles`, so `url` joins the base URL with slash-separated path segments
followed by an optional `?key=value&...` query string. -/
def urlJoin (base : String) (seg : List String) (query : List (String × String)) : String :=
  base ++ "/" ++ String.intercalate "/" seg ++
    (if query.isEmpty then ""
     else "?" ++ String.intercalate "&" (query.map (fun kv => kv.1 ++ "=" ++ kv.2)))

/-- The helper `parse_or_raise` inside `Catalog.get_xml`: parse the body with
the (third-party, abstracted) XML parser; a parse failure raises a plain
`Exception` whose message embeds the URL and the offending body. -/
def parseOrRaise (parse : String → Option XmlElem) (restUrl : String) (xml : String) :
    Except GsError XmlElem :=
  match parse xml with
  | some dom => .ok dom
  | none =>
      .error (.otherExn ("GeoServer gave non-XML response for [GET " ++ restUrl ++ "]: " ++ xml))

/-- The outcome of `Catalog.get_xml`: the returned document (or the raised
exception), the cache afterwards, and whether an HTTP request was issued. -/
structure GetXmlResult where
  result : Except GsError XmlElem
  cache : Cache
  requested : Bool
  deriving Repr

/-- The helper `is_valid` inside `Catalog.get_xml`: a cache entry is valid
when it exists and was stored less than 5 seconds before `now`. -/
def isValidEntry (now : Nat) (entry : Option (Nat × String)) : Bool :=
  match entry with
  | none => false
  | some (t, _) => now - t < 5

/-- The body of `Catalog.get_xml` (catalog.py lines 158-183). `http` maps the
URL to the response of `self.http.request(rest_url)`; `now` is
`datetime.now()`. A fresh entry is stored before the body is parsed, so the
cache is updated even when parsing then raises. -/
def get_xml (parse : String → Option XmlElem) (http : String → HttpResp)
    (now : Nat) (cache : Cache) (restUrl : String) : GetXmlResult :=
  let cached := cacheGet cache restUrl
  if isValidEntry now cached then
    { result := parseOrRaise parse restUrl (cached.getD (0, "")).2
      cache := cache
      requested := false }
  else
    let resp := http restUrl
    if resp.status = 200 then
      { result := parseOrRaise parse restUrl resp.body
        cache := cacheSet cache restUrl (now, resp.body)
        requested := true }
    else
      { result := .error (.failedRequest
          ("Tried to make a GET request to " ++ restUrl ++ " but got a " ++
           toString resp.status ++ " status code: \n" ++ resp.body))
        cache := cache
        requested := true }

/-- The body of `Catalog.save` (catalog.py lines 191-212): request the
object's href with its save method and message, clear the cache, then raise
`FailedRequestError` when `400 <= int(headers['status']) < 600`, returning
the (headers, body) response pair otherwise. -/
def save (restUrl saveMethod message : String) (resp : HttpResp) (cache : Cache) :
    Except GsError (HttpResp × String) × Cache :=
  let _ := (restUrl, saveMethod, message)
  let result : Except GsError (HttpResp × String) :=
    if 400 ≤ resp.status ∧ resp.status < 600 then
      .error (.failedRequest
        ("Error code (" ++ toString resp.status ++ ") from GeoServer: " ++ resp.body))
    else
      .ok (resp, resp.body)
  (result, cacheClear cache)

/-- The URL that `Catalog.delete` (catalog.py lines 125-156) sends its DELETE
request to: the object's href, with `purge=true` and/or `recurse=true`
appended as query parameters. -/
def deleteRestUrl (href : String) (purge recurse : Bool) : String :=
  let params := (if purge then ["purge=true"] else []) ++
                (if recurse then ["recurse=true"] else [])
  if params.isEmpty then href else href ++ "?" ++ String.intercalate "&" params

/-- The body of `Catalog.delete`: request DELETE on the object's href, clear
the cache, return the (response, content) pair when the status is exactly
200 and raise `FailedRequestError` otherwise. -/
def delete (href : String) (purge recurse : Bool) (resp : HttpResp) (cache : Cache) :
    Except GsError (HttpResp × String) × Cache :=
  let restUrl := deleteRestUrl href purge recurse
  let result : Except GsError (HttpResp × String) :=
    if resp.status = 200 then
      .ok (resp, resp.body)
    else
      .error (.failedRequest
        ("Tried to make a DELETE request to " ++ restUrl ++ " but got a " ++
         toString resp.status ++ " status code: \n" ++ resp.body))
  (result, cacheClear cache)

/-- The body of `Catalog.reload` (catalog.py lines 185-189): POST to
`<service_url>/reload`, clear the cache, return the response unchecked. -/
def reload (serviceUrl : String) (resp : HttpResp) (cache : Cache) :
    HttpResp × Cache :=
  let _ := urlJoin serviceUrl ["reload"] []
  (resp, cacheClear cache)

/-- A style as far as the claims need it: catalog.py constructs
`Style(self, name)` from the name text of the fetched document. -/
structure Style where
  name : String
  deriving Repr, DecidableEq

/-- The outcome of `Catalog.create_style` (catalog.py lines 538-555): the
result (or raised exception), the cache afterwards, and the request issued,
when one is, as a (URL, HTTP verb) pair. `existing` is the value of
`self.get_style(name)` — `some` a style iff a style with that name exists. -/
structure CreateStyleResult where
  result : Except GsError Unit
  cache : Cache
  request : Option (String × String)
  deriving Repr

/-- The body of `Catalog.create_style`: with `overwrite` false and an existing
style, raise `ConflictingDataError` before any request; otherwise PUT to
`/styles/<name>.sld` (overwrite) or POST to `/styles?name=<name>`, clear the
cache, and raise `UploadError` when the status is below 200 or above 299. -/
def create_style (serviceUrl name : String) (existing : Option Style)
    (overwrite : Bool) (resp : HttpResp) (cache : Cache) : CreateStyleResult :=
  if overwrite = false ∧ existing.isSome then
    { result := .error (.conflictingData ("There is already a style named " ++ name))
      cache := cache
      request := none }
  else
    let req :=
      if overwrite then (urlJoin serviceUrl ["styles", name ++ ".sld"] [], "PUT")
      else (urlJoin serviceUrl ["styles"] [("name", name)], "POST")
    let cache := cacheClear cache
    if resp.status < 200 ∨ resp.status > 299 then
      { result := .error (.uploadErr resp.body), cache := cache, request := some req }
    else
      { result := .ok (), cache := cache, request := some req }

/-- The upload core of `Catalog.add_data_to_store` (catalog.py lines 289-319),
from the PUT of the zip bundle onward (the store/workspace resolution,
assertion and file bundling that precede it involve no cache access): clear
the cache after the request and raise `UploadError` unless the status is
201. -/
def add_data_to_store (resp : HttpResp) (cache : Cache) :
    Except GsError Unit × Cache :=
  let result : Except GsError Unit :=
    if resp.status = 201 then .ok () else .error (.uploadErr resp.body)
  (result, cacheClear cache)

/-- The upload core of `Catalog.create_featurestore` (catalog.py lines
321-361), from the PUT of the archive onward; `conflict` is true when
`overwrite` is false and `get_store(name, workspace)` found a store, in which
case `ConflictingDataError` is raised before any request or cache access. -/
def create_featurestore (name : String) (conflict : Bool) (resp : HttpResp)
    (cache : Cache) : Except GsError Unit × Cache :=
  if conflict then
    (.error (.conflictingData ("There is already a store named " ++ name)), cache)
  else
    let result : Except GsError Unit :=
      if resp.status = 201 then .ok () else .error (.uploadErr resp.body)
    (result, cacheClear cache)

/-- The upload core of `Catalog.create_coveragestore` (catalog.py lines
363-408), from the PUT onward; `conflict` as in `create_featurestore`. -/
def create_coveragestore (name : String) (conflict : Bool) (resp : HttpResp)
    (cache : Cache) : Except GsError Unit × Cache :=
  if conflict then
    (.error (.conflictingData ("There is already a store named " ++ name)), cache)
  else
    let result : Except GsError Unit :=
      if resp.status = 201 then .ok () else .error (.uploadErr resp.body)
    (result, cacheClear cache)

/-- The possible arguments of `_name` (catalog.py lines 33-46), classified by
the checks the function performs: a string, `None`, an object whose `name`
attribute is the given string, an object whose `name` attribute exists but is
not a string, and an object with no `name` attribute. `repr` stands for the
`%s` rendering of the object in the error message. -/
inductive NamedArg where
  | str (s : String)
  | noneV
  | objStrName (repr : String) (name : String)
  | objNonStrName (repr : String)
  | objNoName (repr : String)
  deriving Repr, DecidableEq

/-- What `_name` returns on success: the string it extracted, or `None`
(passed through when the argument is `None`). -/
inductive NameResult where
  | str (s : String)
  | noneV
  deriving Repr, DecidableEq

/-- The body of `_name`: a string or `None` is returned itself; an object
with a string `name` attribute yields that attribute; everything else raises
`ValueError`. -/
def pyName (named : NamedArg) : Except GsError NameResult :=
  match named with
  | .str s => .ok (.str s)
  | .noneV => .ok .noneV
  | .objStrName _ n => .ok (.str n)
  | .objNonStrName r =>
      .error (.valueError ("Can\x27t interpret " ++ r ++ " as a name or a configuration object"))
  | .objNoName r =>
      .error (.valueError ("Can\x27t interpret " ++ r ++ " as a name or a configuration object"))

/-- A workspace as the claims need it: catalog.py uses only `ws.name` and the
store listing URLs derived from it. -/
structure Workspace where
  name : String
  deriving Repr, DecidableEq

/-- A store as `get_store` handles it: its name, and the name of the
workspace it was found in. -/
structure StoreObj where
  name : String
  workspaceName : String
  deriving Repr, DecidableEq

/-- A Python 2 value that is either a string or a list of strings, for the
`str + list` concatenation `get_store` attempts in its ambiguous branch. -/
inductive PyVal where
  | pstr (s : String)
  | plist (l : List String)
  deriving Repr, DecidableEq

/-- Python 2 `+` on these values: concatenation between two strings or two
lists; mixing a string with a list raises
`TypeError: cannot concatenate 'str' and 'list' objects`. -/
def pyAdd (a b : PyVal) : Except GsError PyVal :=
  match a, b with
  | .pstr x, .pstr y => .ok (.pstr (x ++ y))
  | .plist x, .plist y => .ok (.plist (x ++ y))
  | _, _ => .error (.typeError "cannot concatenate \x27str\x27 and \x27list\x27 objects")

/-- Python dict lookup built by `dict(zip(keys, values))`: when a key repeats,
the later pair wins. -/
def dictZipLookup (pairs : List (String × StoreObj)) (k : String) : Option StoreObj :=
  (pairs.reverse.find? (fun p => p.1 = k)).map (fun p => p.2)

/-- Python dict insertion for `found_stores[key] = store`: replace the value
when the key is present, append the pair otherwise. -/
def dictInsert (d : List (String × StoreObj)) (k : String) (v : StoreObj) :
    List (String × StoreObj) :=
  if (d.find? (fun p => p.1 = k)).isSome then
    d.map (fun p => if p.1 = k then (k, v) else p)
  else
    d ++ [(k, v)]

/-- The body of `Catalog.get_workspace` (catalog.py lines 574-581): filter
the workspace listing by name; none → `None`, several → raise
`AmbiguousRequestError()`, one → that workspace. -/
def get_workspace (allWs : List Workspace) (name : String) :
    Except GsError (Option Workspace) :=
  match allWs.filter (fun w => w.name = name) with
  | [] => .ok none
  | [w] => .ok (some w)
  | _ :: _ :: _ => .error (.ambiguousRequest "")

/-- The `workspace` argument of `Catalog.get_store`: absent, a workspace
name string, or a workspace object. -/
inductive WsArg where
  | noneV
  | str (s : String)
  | obj (w : Workspace)
  deriving Repr, DecidableEq

/-- The loop of `Catalog.get_store` (catalog.py lines 231-241) over the
workspaces to search: for each workspace, build `new_stores` as
`dict(zip([s.name for s in raw_stores], raw_stores))` over the stores
`get_stores` returns for it, and record a hit in `found_stores` under the key
`ws.name + ':' + name`. -/
def foundStores (storesOf : Workspace → List StoreObj) (name : String)
    (workspaces : List Workspace) : List (String × StoreObj) :=
  workspaces.foldl
    (fun acc ws =>
      let newStores := (storesOf ws).map (fun s => (s.name, s))
      match dictZipLookup newStores name with
      | some st => dictInsert acc (ws.name ++ ":" ++ name) st
      | none => acc)
    []

/-- The body of `Catalog.get_store` (catalog.py lines 214-252). `allWs` is
the server's workspace listing (what `get_workspaces` yields) and `storesOf`
what `get_stores` yields per workspace. A string workspace argument is
resolved through `get_workspace`; an unresolved name falls back to searching
every workspace. No hit raises `FailedRequestError`; several hits attempt to
build the `AmbiguousRequestError` message by concatenating a `str` with
`found_stores.keys()` — a `list` — which in Python 2 raises `TypeError`
instead; a unique hit is returned. -/
def get_store (allWs : List Workspace) (storesOf : Workspace → List StoreObj)
    (name : String) (workspace : WsArg) : Except GsError StoreObj :=
  let resolved : Except GsError (Option Workspace) :=
    match workspace with
    | .noneV => .ok none
    | .str s => get_workspace allWs s
    | .obj w => .ok (some w)
  match resolved with
  | .error e => .error e
  | .ok wsOpt =>
    let workspaces := match wsOpt with
      | none => allWs
      | some w => [w]
    match foundStores storesOf name workspaces with
    | [] => .error (.failedRequest ("No store found named: " ++ name))
    | [(_, st)] => .ok st
    | found =>
      match pyAdd (.pstr ("Multiple stores found named \x27" ++ name ++ "\x27: "))
                  (.plist (found.map (fun p => p.1))) with
      | .error e => .error e
      | .ok _ => .error (.ambiguousRequest "")

/-- The listing URL `Catalog.get_workspaces` (catalog.py lines 570-572)
requests: the string interpolation `"%s/workspaces.xml" % self.service_url`. -/
def get_workspaces_url (serviceUrl : String) : String :=
  serviceUrl ++ "/workspaces.xml"

/-- The body of `Catalog.get_workspaces`: fetch the listing and build a
workspace per `workspace` child (`workspace_from_index` reads the name
child's text; a missing name yields the empty string here). -/
def get_workspaces (parse : String → Option XmlElem) (http : String → HttpResp)
    (now : Nat) (cache : Cache) (serviceUrl : String) :
    Except GsError (List Workspace) :=
  match (get_xml parse http now cache (get_workspaces_url serviceUrl)).result with
  | .error e => .error e
  | .ok dom =>
      .ok ((dom.findall "workspace").map
        (fun n => ⟨((n.findTag "name").map XmlElem.textOf).getD ""⟩))

/-- The listing URL `Catalog.get_layers` (catalog.py lines 478-487) requests:
`url(self.service_url, ["layers.xml"])`, computed before and independently of
the optional `resource` argument (modelled here by the resource's href). -/
def get_layers_url (serviceUrl : String) (resource : Option String) : String :=
  let _ := resource
  urlJoin serviceUrl ["layers.xml"] []

/-- A layer's client-side state (layer.py): its name, the fetched document
(`self.dom`, `None` until `fetch`), and the dirty dictionary, modelled with
one optional field per key the styles claims touch — `some` iff the key is
present in `self.dirty`. The `default_style` entry holds a style name or
`None` (layer.py line 102-105 converts a `Style` to its name). -/
structure Layer where
  name : String
  dom : Option XmlElem
  dirtyDefaultStyle : Option (Option String) := none
  dirtyAlternateStyles : Option (List Style) := none

/-- The `save_method` class attribute of `Layer` (layer.py line 67). -/
def layerSaveMethod : String := "PUT"

/-- The `href` property of `Layer` (layer.py lines 69-71):
`url(self.catalog.service_url, ["layers", self.name + ".xml"])`. -/
def layerHref (serviceUrl : String) (name : String) : String :=
  urlJoin serviceUrl ["layers", name ++ ".xml"] []

/-- The argument of `Layer._set_default_style`: a `Style` object, a plain
style name, or `None`. -/
inductive StyleArg where
  | styleObj (s : Style)
  | strName (s : String)
  | noneA
  deriving Repr, DecidableEq

/-- What `_set_default_style` stores into the dirty dictionary: the style's
name when given a `Style`, otherwise the argument itself. -/
def styleArgValue : StyleArg → Option String
  | .styleObj s => some s.name
  | .strName s => some s
  | .noneA => none

/-- A layer session: the layer object together with the log of HTTP requests
issued so far, each recorded as (URL, verb, body). -/
structure LayerSession where
  layer : Layer
  requests : List (String × String × String)

/-- The body of `Layer._set_default_style` (layer.py lines 102-105): convert
a `Style` argument to its name and store it under `default_style` in the
dirty dictionary. No HTTP request is made. -/
def set_default_style (st : LayerSession) (style : StyleArg) : LayerSession :=
  { st with layer := { st.layer with dirtyDefaultStyle := some (styleArgValue style) } }

/-- The body of `Layer._set_alternate_styles` (layer.py lines 126-127): store
the given styles under `alternate_styles` in the dirty dictionary. No HTTP
request is made. -/
def set_alternate_styles (st : LayerSession) (styles : List Style) : LayerSession :=
  { st with layer := { st.layer with dirtyAlternateStyles := some styles } }

/-- The writer `_write_default_style` (layer.py lines 40-46), with the
ElementTree builder calls rendered as the XML text they build. -/
def writeDefaultStyle (name : Option String) : String :=
  "<defaultStyle>" ++
    (match name with
     | some n => "<name>" ++ n ++ "</name>"
     | none => "") ++
  "</defaultStyle>"

/-- The writer `_write_alternate_styles` (layer.py lines 49-57), rendered the
same way. -/
def writeAlternateStyles (styles : List Style) : String :=
  "<styles>" ++
    String.join (styles.map (fun s => "<style><name>" ++ s.name ++ "</name></style>")) ++
  "</styles>"

/-- Modelled from the spec: `ResourceInfo.message` lives in geoserver/support.py,
which is not under src/. The spec describes "the dirty-field XML diffing used
for PUT/POST bodies", so `message` serializes exactly the dirty entries,
each through its writer from `Layer.writers` (layer.py lines 149-155), inside
the layer's root element. -/
def layerMessage (l : Layer) : String :=
  "<layer>" ++
    (match l.dirtyDefaultStyle with
     | some v => writeDefaultStyle v
     | none => "") ++
    (match l.dirtyAlternateStyles with
     | some ss => writeAlternateStyles ss
     | none => "") ++
  "</layer>"

/-- `Catalog.save` applied to a layer: one request is issued, to the object's
`href` with its `save_method` verb and its `message` body, then the cache is
cleared and the status checked as in `save`. -/
def saveLayer (serviceUrl : String) (st : LayerSession) (resp : HttpResp)
    (cache : Cache) : (Except GsError (HttpResp × String)) × LayerSession × Cache :=
  let restUrl := layerHref serviceUrl st.layer.name
  let msg := layerMessage st.layer
  let outcome := save restUrl layerSaveMethod msg resp cache
  (outcome.1,
   { st with requests := st.requests ++ [(restUrl, layerSaveMethod, msg)] },
   outcome.2)

/-- A layer group as `get_layergroup` builds it: `LayerGroup(self, name)`
from the name text of the fetched document. -/
structure LayerGroup where
  name : String
  deriving Repr, DecidableEq

/-- The body of `Catalog.get_layer` (catalog.py lines 470-476): construct the
layer, `fetch` it, and return it; a `FailedRequestError` from the fetch is
caught and turned into `None`. `fetch` itself is Modelled from the spec: it
lives in `ResourceInfo` in geoserver/support.py, not under src/; the spec
says the library fetches remote state, and `Layer.resource` (layer.py lines
74-78) shows `fetch` populates `self.dom`, so it GETs the object's href
through `get_xml` and stores the document. -/
def get_layer (parse : String → Option XmlElem) (http : String → HttpResp)
    (now : Nat) (cache : Cache) (serviceUrl name : String) :
    Except GsError (Option Layer) :=
  match (get_xml parse http now cache (layerHref serviceUrl name)).result with
  | .error (.failedRequest _) => .ok none
  | .error e => .error e
  | .ok dom => .ok (some { name := name, dom := some dom })

/-- The body of `Catalog.get_style` (catalog.py lines 507-513): GET
`/styles/<name>.xml`, build a `Style` from the document's name text; a
`FailedRequestError` is caught and turned into `None`. A document without a
`name` child would make `dom.find("name").text` raise `AttributeError`,
which is not caught. -/
def get_style (parse : String → Option XmlElem) (http : String → HttpResp)
    (now : Nat) (cache : Cache) (serviceUrl name : String) :
    Except GsError (Option Style) :=
  match (get_xml parse http now cache (urlJoin serviceUrl ["styles", name ++ ".xml"] [])).result with
  | .error (.failedRequest _) => .ok none
  | .error e => .error e
  | .ok dom =>
      match dom.findTag "name" with
      | some n => .ok (some ⟨n.textOf⟩)
      | none => .error (.otherExn "AttributeError: NoneType object has no attribute text")

/-- The body of `Catalog.get_layergroup` (catalog.py lines 489-495): GET
`/layergroups/<name>.xml`, build a `LayerGroup` from the document's name
text; a `FailedRequestError` is caught and turned into `None`. -/
def get_layergroup (parse : String → Option XmlElem) (http : String → HttpResp)
    (now : Nat) (cache : Cache) (serviceUrl name : String) :
    Except GsError (Option LayerGroup) :=
  match (get_xml parse http now cache (urlJoin serviceUrl ["layergroups", name ++ ".xml"] [])).result with
  | .error (.failedRequest _) => .ok none
  | .error e => .error e
  | .ok dom =>
      match dom.findTag "name" with
      | some n => .ok (some ⟨n.textOf⟩)
      | none => .error (.otherExn "AttributeError: NoneType object has no attribute text")

/-- C10: for every input, `_name` returns the input itself when it is a
string or `None`, returns the input's `name` attribute when that attribute
exists and is a string, and raises `ValueError` in all other cases. -/
theorem c10_name_extraction :
    (∀ s, pyName (.str s) = .ok (.str s)) ∧
    pyName .noneV = .ok .noneV ∧
    (∀ r n, pyName (.objStrName r n) = .ok (.str n)) ∧
    (∀ r, pyName (.objNonStrName r) =
      .error (.valueError ("Can\x27t interpret " ++ r ++ " as a name or a configuration object"))) ∧
    (∀ r, pyName (.objNoName r) =
      .error (.valueError ("Can\x27t interpret " ++ r ++ " as a name or a configuration object"))) :=
  ⟨fun _ => rfl, rfl, fun _ _ => rfl, fun _ => rfl, fun _ => rfl⟩

/-- C1, counterexample: a 302 response is not in the 2xx range, yet
`Catalog.save` does not raise `FailedRequestError` — it returns the
(headers, body) pair, because the code only raises for statuses in
[400, 600). -/
theorem c1_counterexample :
    (302 < 200 ∨ 299 < 302) ∧
    (save "u" "PUT" "m" ⟨302, "b"⟩ []).1 = .ok (⟨302, "b"⟩, "b") :=
  ⟨Or.inr (by decide), rfl⟩

/-- C1, amended: `Catalog.save` raises `FailedRequestError` exactly when the
response status is in [400, 600); for every status outside that range
(2xx included) it returns the (headers, body) response pair. -/
theorem c1_save_raises_iff_4xx_5xx (restUrl saveMethod message : String)
    (resp : HttpResp) (cache : Cache) :
    (400 ≤ resp.status ∧ resp.status < 600 →
      (save restUrl saveMethod message resp cache).1 =
        .error (.failedRequest
          ("Error code (" ++ toString resp.status ++ ") from GeoServer: " ++ resp.body))) ∧
    (¬(400 ≤ resp.status ∧ resp.status < 600) →
      (save restUrl saveMethod message resp cache).1 = .ok (resp, resp.body)) := by
  constructor <;> intro h <;> simp [save, h]

/-- C1, witness: the amended theorem applied at a 404 response (raises) and
at a 201 response (returns the pair). -/
theorem c1_witness :
    (save "u" "PUT" "m" ⟨404, "b"⟩ []).1 =
      .error (.failedRequest
        ("Error code (" ++ toString (404 : Nat) ++ ") from GeoServer: " ++ "b")) ∧
    (save "u" "PUT" "m" ⟨201, "b"⟩ []).1 = .ok (⟨201, "b"⟩, "b") :=
  ⟨(c1_save_raises_iff_4xx_5xx "u" "PUT" "m" ⟨404, "b"⟩ []).1 (by decide),
   (c1_save_raises_iff_4xx_5xx "u" "PUT" "m" ⟨201, "b"⟩ []).2 (by decide)⟩

/-- C4, counterexample: a 204 response is in the 2xx range, yet
`Catalog.delete` raises `FailedRequestError` — the code returns the pair
only for a status of exactly 200. -/
theorem c4_counterexample :
    (200 ≤ 204 ∧ 204 ≤ 299) ∧
    (delete "u" false false ⟨204, "b"⟩ []).1 =
      .error (.failedRequest
        ("Tried to make a DELETE request to u but got a 204 status code: \nb")) :=
  ⟨by decide, rfl⟩

/-- C4, amended: `Catalog.delete` raises `FailedRequestError` exactly when
the response status differs from 200; for a 200 response it returns the
(response, content) pair. -/
theorem c4_delete_raises_iff_not_200 (href : String) (purge recurse : Bool)
    (resp : HttpResp) (cache : Cache) :
    (resp.status = 200 →
      (delete href purge recurse resp cache).1 = .ok (resp, resp.body)) ∧
    (resp.status ≠ 200 →
      (delete href purge recurse resp cache).1 =
        .error (.failedRequest
          ("Tried to make a DELETE request to " ++ deleteRestUrl href purge recurse ++
           " but got a " ++ toString resp.status ++ " status code: \n" ++ resp.body))) := by
  constructor <;> intro h <;> simp [delete, h]

/-- C4, witness: the amended theorem applied at a 200 response (returns the
pair) and at a 404 response (raises). -/
theorem c4_witness :
    (delete "u" false false ⟨200, "b"⟩ []).1 = .ok (⟨200, "b"⟩, "b") ∧
    (delete "u" true false ⟨404, "b"⟩ []).1 =
      .error (.failedRequest
        ("Tried to make a DELETE request to " ++ deleteRestUrl "u" true false ++
         " but got a " ++ toString (404 : Nat) ++ " status code: \n" ++ "b")) :=
  ⟨(c4_delete_raises_iff_not_200 "u" false false ⟨200, "b"⟩ []).1 (by decide),
   (c4_delete_raises_iff_not_200 "u" true false ⟨404, "b"⟩ []).2 (by decide)⟩

/-- C3: at the failing input — a store named `s` existing in each of the two
workspaces `a` and `b`, searched with no workspace argument — `get_store`
raises `TypeError`, not `AmbiguousRequestError`: the Python 2 expression
`"Multiple stores found named '" + name + "': " + found_stores.keys()`
concatenates a `str` with a `list`, which raises `TypeError` before the
`AmbiguousRequestError` is ever constructed. -/
theorem c3_ambiguous_raises_typeerror :
    get_store [⟨"a"⟩, ⟨"b"⟩]
      (fun w => if w.name = "a" then [⟨"s", "a"⟩] else [⟨"s", "b"⟩]) "s" .noneV =
      .error (.typeError "cannot concatenate \x27str\x27 and \x27list\x27 objects") := rfl

/-- Helper: `urlJoin` over one path segment and no query. -/
theorem urlJoin_one (base a : String) : urlJoin base [a] [] = base ++ "/" ++ a := by
  simp [urlJoin, String.intercalate, String.intercalate.go]

/-- Helper: `urlJoin` over two path segments and no query. -/
theorem urlJoin_two (base a b : String) :
    urlJoin base [a, b] [] = base ++ "/" ++ a ++ "/" ++ b := by
  simp [urlJoin, String.intercalate, String.intercalate.go, String.append_assoc]

/-- Helper: `urlJoin` over one path segment and a single query parameter. -/
theorem urlJoin_one_query (base a k v : String) :
    urlJoin base [a] [(k, v)] = base ++ "/" ++ a ++ "?" ++ k ++ "=" ++ v := by
  simp [urlJoin, String.intercalate, String.intercalate.go, String.append_assoc]

/-- C2: `get_xml` answers from the cache — without issuing a request and
leaving the cache unchanged — whenever an entry for the URL exists and was
stored less than 5 seconds ago; otherwise it issues the GET and, on a 200
response, stores the current time and body in the cache and returns the
parsed body. -/
theorem c2_get_xml_cache_semantics (parse : String → Option XmlElem)
    (http : String → HttpResp) (now : Nat) (cache : Cache) (u : String) :
    (∀ t body, cacheGet cache u = some (t, body) → now - t < 5 →
      get_xml parse http now cache u =
        { result := parseOrRaise parse u body, cache := cache, requested := false }) ∧
    (isValidEntry now (cacheGet cache u) = false → (http u).status = 200 →
      get_xml parse http now cache u =
        { result := parseOrRaise parse u (http u).body
          cache := cacheSet cache u (now, (http u).body)
          requested := true }) := by
  constructor
  · intro t body hGet hFresh
    simp [get_xml, hGet, isValidEntry, hFresh]
  · intro hInvalid hStatus
    simp [get_xml, hInvalid, hStatus]

/-- C2, witness: the theorem applied to a cache entry stored 2 seconds ago
(served from the cache, no request) and to an empty cache with a 200
response (fetched, stored, parsed). -/
theorem c2_witness :
    (get_xml (fun s => some (.elem "t" s [])) (fun _ => ⟨200, "zz"⟩) 12
        [("u", 10, "<a/>")] "u" =
      { result := parseOrRaise (fun s => some (.elem "t" s [])) "u" "<a/>"
        cache := [("u", 10, "<a/>")]
        requested := false }) ∧
    (get_xml (fun s => some (.elem "t" s [])) (fun _ => ⟨200, "zz"⟩) 12 [] "u" =
      { result := parseOrRaise (fun s => some (.elem "t" s [])) "u" "zz"
        cache := cacheSet [] "u" (12, "zz")
        requested := true }) :=
  ⟨(c2_get_xml_cache_semantics (fun s => some (.elem "t" s [])) (fun _ => ⟨200, "zz"⟩)
      12 [("u", 10, "<a/>")] "u").1 10 "<a/>" rfl (by decide),
   (c2_get_xml_cache_semantics (fun s => some (.elem "t" s [])) (fun _ => ⟨200, "zz"⟩)
      12 [] "u").2 rfl rfl⟩

/-- C5: setting a layer's default style or alternate styles only writes the
corresponding dirty-dictionary entry — the layer's other state is untouched
and no HTTP request is issued — and `Catalog.save` on the layer issues
exactly one request, sending the object's message with its save method
(PUT) to its href. -/
theorem c5_style_setters_are_local (st : LayerSession) (arg : StyleArg)
    (styles : List Style) (serviceUrl : String) (resp : HttpResp) (cache : Cache) :
    ((set_default_style st arg).layer.name = st.layer.name ∧
     (set_default_style st arg).layer.dom = st.layer.dom ∧
     (set_default_style st arg).layer.dirtyAlternateStyles = st.layer.dirtyAlternateStyles ∧
     (set_default_style st arg).layer.dirtyDefaultStyle = some (styleArgValue arg) ∧
     (set_default_style st arg).requests = st.requests) ∧
    ((set_alternate_styles st styles).layer.name = st.layer.name ∧
     (set_alternate_styles st styles).layer.dom = st.layer.dom ∧
     (set_alternate_styles st styles).layer.dirtyDefaultStyle = st.layer.dirtyDefaultStyle ∧
     (set_alternate_styles st styles).layer.dirtyAlternateStyles = some styles ∧
     (set_alternate_styles st styles).requests = st.requests) ∧
    (saveLayer serviceUrl st resp cache).2.1.requests =
      st.requests ++ [(layerHref serviceUrl st.layer.name, layerSaveMethod, layerMessage st.layer)] :=
  ⟨⟨rfl, rfl, rfl, rfl, rfl⟩, ⟨rfl, rfl, rfl, rfl, rfl⟩, rfl⟩

/-- C6: with `overwrite` false, `create_style` raises `ConflictingDataError`
whenever a style with the given name already exists (before any request);
otherwise it PUTs to `/styles/<name>.sld` when overwriting and POSTs to the
`/styles` path (with the name as query parameter) when not, and raises
`UploadError` exactly when the response status lies outside 200–299. -/
theorem c6_create_style_conflict_and_upload (serviceUrl name : String)
    (existing : Option Style) (overwrite : Bool) (resp : HttpResp) (cache : Cache) :
    (overwrite = false → existing.isSome = true →
      create_style serviceUrl name existing overwrite resp cache =
        { result := .error (.conflictingData ("There is already a style named " ++ name))
          cache := cache
          request := none }) ∧
    (¬(overwrite = false ∧ existing.isSome = true) →
      (create_style serviceUrl name existing overwrite resp cache).request =
        some (if overwrite then (serviceUrl ++ "/" ++ "styles" ++ "/" ++ name ++ ".sld", "PUT")
              else (serviceUrl ++ "/" ++ "styles" ++ "?" ++ "name" ++ "=" ++ name, "POST")) ∧
      (resp.status < 200 ∨ 299 < resp.status →
        (create_style serviceUrl name existing overwrite resp cache).result =
          .error (.uploadErr resp.body)) ∧
      (200 ≤ resp.status → resp.status ≤ 299 →
        (create_style serviceUrl name existing overwrite resp cache).result = .ok ())) := by
  constructor
  · intro h1 h2
    simp [create_style, h1, h2]
  · intro h
    refine ⟨?_, ?_, ?_⟩
    · rcases Bool.dichotomy overwrite with hov | hov
      · have hex : existing.isSome = false := by
          rcases Bool.dichotomy existing.isSome with hx | hx
          · exact hx
          · exact absurd ⟨hov, hx⟩ h
        have hq := urlJoin_one_query serviceUrl "styles" "name" name
        simp [create_style, hov, hex, hq, String.append_assoc]
        split <;> rfl
      · have h2 := urlJoin_two serviceUrl "styles" (name ++ ".sld")
        simp [create_style, hov, h2, String.append_assoc]
        split <;> rfl
    · intro hs
      simp [create_style, h, hs]
    · intro h1 h2
      have hs : ¬(resp.status < 200 ∨ 299 < resp.status) := by omega
      simp [create_style, h, hs]

/-- C6, witness: the theorem applied to an existing style without overwrite
(conflict), and to a miss with a 201 response (POST upload succeeds) and a
500 response (UploadError). -/
theorem c6_witness :
    (create_style "S" "n" (some ⟨"n"⟩) false ⟨201, "b"⟩ [("u", 0, "x")] =
      { result := .error (.conflictingData ("There is already a style named " ++ "n"))
        cache := [("u", 0, "x")]
        request := none }) ∧
    (create_style "S" "n" none false ⟨201, "b"⟩ []).result = .ok () ∧
    (create_style "S" "n" none false ⟨500, "b"⟩ []).result = .error (.uploadErr "b") :=
  ⟨(c6_create_style_conflict_and_upload "S" "n" (some ⟨"n"⟩) false ⟨201, "b"⟩
      [("u", 0, "x")]).1 rfl rfl,
   ((c6_create_style_conflict_and_upload "S" "n" none false ⟨201, "b"⟩ []).2
      (by decide)).2.2 (by decide) (by decide),
   ((c6_create_style_conflict_and_upload "S" "n" none false ⟨500, "b"⟩ []).2
      (by decide)).2.1 (by decide)⟩

/-- C7: the listing URL `get_workspaces` requests is always exactly
`<service_url>/workspaces.xml`, and the listing URL `get_layers` requests is
always exactly `<service_url>/layers.xml`, independent of the `resource`
argument. -/
theorem c7_fixed_listing_urls (serviceUrl : String) (resource : Option String) :
    get_workspaces_url serviceUrl = serviceUrl ++ "/workspaces.xml" ∧
    get_layers_url serviceUrl resource = serviceUrl ++ "/layers.xml" := by
  refine ⟨rfl, ?_⟩
  have h := urlJoin_one serviceUrl "layers.xml"
  simp [get_layers_url, h, String.append_assoc]

/-- C8: every mutating catalog operation — `delete`, `reload`, `save`,
`create_style` (once past its conflict check) and the data-upload operations
(past theirs) — leaves the response cache empty, and `get_xml` on an empty
cache never answers from the cache: it always issues the request, and on a
200 response returns the parse of the fresh body. -/
theorem c8_mutations_clear_cache (restUrl saveMethod message href serviceUrl name : String)
    (purge recurse overwrite conflict : Bool) (existing : Option Style)
    (resp : HttpResp) (cache : Cache) (parse : String → Option XmlElem)
    (http : String → HttpResp) (now : Nat) (u : String) :
    (delete href purge recurse resp cache).2 = [] ∧
    (reload serviceUrl resp cache).2 = [] ∧
    (save restUrl saveMethod message resp cache).2 = [] ∧
    (¬(overwrite = false ∧ existing.isSome = true) →
      (create_style serviceUrl name existing overwrite resp cache).cache = []) ∧
    (add_data_to_store resp cache).2 = [] ∧
    (conflict = false → (create_featurestore name conflict resp cache).2 = []) ∧
    (conflict = false → (create_coveragestore name conflict resp cache).2 = []) ∧
    (get_xml parse http now [] u).requested = true ∧
    ((http u).status = 200 →
      (get_xml parse http now [] u).result = parseOrRaise parse u (http u).body) := by
  refine ⟨rfl, rfl, rfl, ?_, rfl, ?_, ?_, ?_, ?_⟩
  · intro h
    simp only [create_style]
    rw [if_neg (by simpa using h)]
    split <;> rfl
  · intro h
    simp [create_featurestore, h, cacheClear]
  · intro h
    simp [create_coveragestore, h, cacheClear]
  · have hnone : cacheGet ([] : Cache) u = none := rfl
    simp only [get_xml, hnone, isValidEntry, Bool.false_eq_true, if_false]
    split <;> rfl
  · intro h
    simp [get_xml, cacheGet, isValidEntry, h]

/-- C8, witness: the theorem applied at concrete inputs — a `create_style`
miss, upload operations without conflict, and a GET on the cleared cache
answered with status 200. -/
theorem c8_witness :
    (create_style "S" "n" none false ⟨201, "b"⟩ [("u", 0, "x")]).cache = [] ∧
    (create_featurestore "n" false ⟨201, "b"⟩ [("u", 0, "x")]).2 = [] ∧
    (create_coveragestore "n" false ⟨201, "b"⟩ [("u", 0, "x")]).2 = [] ∧
    (get_xml (fun _ => none) (fun _ => ⟨200, "zz"⟩) 0 [] "u").result =
      parseOrRaise (fun _ => none) "u" "zz" :=
  ⟨(c8_mutations_clear_cache "r" "PUT" "m" "h" "S" "n" false false false false none
      ⟨201, "b"⟩ [("u", 0, "x")] (fun _ => none) (fun _ => ⟨200, "zz"⟩) 0 "u").2.2.2.1
      (by decide),
   (c8_mutations_clear_cache "r" "PUT" "m" "h" "S" "n" false false false false none
      ⟨201, "b"⟩ [("u", 0, "x")] (fun _ => none) (fun _ => ⟨200, "zz"⟩) 0 "u").2.2.2.2.2.1
      rfl,
   (c8_mutations_clear_cache "r" "PUT" "m" "h" "S" "n" false false false false none
      ⟨201, "b"⟩ [("u", 0, "x")] (fun _ => none) (fun _ => ⟨200, "zz"⟩) 0 "u").2.2.2.2.2.2.1
      rfl,
   (c8_mutations_clear_cache "r" "PUT" "m" "h" "S" "n" false false false false none
      ⟨201, "b"⟩ [("u", 0, "x")] (fun _ => none) (fun _ => ⟨200, "zz"⟩) 0 "u").2.2.2.2.2.2.2.2
      rfl⟩

/-- C9: `get_layer`, `get_style` and `get_layergroup` return `None` — rather
than propagating the exception — whenever the underlying `get_xml` request
raises `FailedRequestError`. -/
theorem c9_getters_none_on_failed_request (parse : String → Option XmlElem)
    (http : String → HttpResp) (now : Nat) (cache : Cache)
    (serviceUrl name m : String) :
    ((get_xml parse http now cache (layerHref serviceUrl name)).result =
        .error (.failedRequest m) →
      get_layer parse http now cache serviceUrl name = .ok none) ∧
    ((get_xml parse http now cache
        (urlJoin serviceUrl ["styles", name ++ ".xml"] [])).result =
        .error (.failedRequest m) →
      get_style parse http now cache serviceUrl name = .ok none) ∧
    ((get_xml parse http now cache
        (urlJoin serviceUrl ["layergroups", name ++ ".xml"] [])).result =
        .error (.failedRequest m) →
      get_layergroup parse http now cache serviceUrl name = .ok none) := by
  refine ⟨?_, ?_, ?_⟩ <;> intro h <;> simp [get_layer, get_style, get_layergroup, h]

/-- C9, witness: the theorem applied with every request answered 404 on an
empty cache, so each underlying GET raises `FailedRequestError` and each
getter returns `None`. -/
theorem c9_witness :
    get_layer (fun _ => none) (fun _ => ⟨404, "nf"⟩) 0 [] "S" "n" = .ok none ∧
    get_style (fun _ => none) (fun _ => ⟨404, "nf"⟩) 0 [] "S" "n" = .ok none ∧
    get_layergroup (fun _ => none) (fun _ => ⟨404, "nf"⟩) 0 [] "S" "n" = .ok none :=
  ⟨(c9_getters_none_on_failed_request (fun _ => none) (fun _ => ⟨404, "nf"⟩) 0 [] "S" "n"
      ("Tried to make a GET request to " ++ layerHref "S" "n" ++
       " but got a " ++ toString (404 : Nat) ++ " status code: \n" ++ "nf")).1 rfl,
   (c9_getters_none_on_failed_request (fun _ => none) (fun _ => ⟨404, "nf"⟩) 0 [] "S" "n"
      ("Tried to make a GET request to " ++ urlJoin "S" ["styles", "n" ++ ".xml"] [] ++
       " but got a " ++ toString (404 : Nat) ++ " status code: \n" ++ "nf")).2.1 rfl,
   (c9_getters_none_on_failed_request (fun _ => none) (fun _ => ⟨404, "nf"⟩) 0 [] "S" "n"
      ("Tried to make a GET request to " ++ urlJoin "S" ["layergroups", "n" ++ ".xml"] [] ++
       " but got a " ++ toString (404 : Nat) ++ " status code: \n" ++ "nf")).2.2 rfl⟩

end GsConfig
